import Mathlib

/-!
# Verification of the `deleteApi` route-management action

A shallow embedding of `src/core/routemgmt/deleteApi/deleteApi.js`:
the deletion decision-and-mutation workflow that removes an API mapping
(in whole or in part) from an API gateway.

JavaScript values that may be `undefined` are modelled as `Option String`,
with JS truthiness made explicit.  The promise chain of `main` is modelled
as straight-line code over an `Env` record holding the outcome of each
gateway-collaborator call, and the workflow returns both its final
`Except` result and the list of collaborator calls it made, in order.

The collaborator functions `utils.getTenants`, `utils.getApis`,
`utils.deleteApiFromGateway` and `utils.addApiToGateway` are external
network calls (out of scope per the spec); their results are supplied by
`Env`.  The pure helpers `utils.generateSwaggerApiFromGwApi` and
`utils.removeEndpointFromSwaggerApi` live in `utils.js`, which is not part
of the sources; they are modelled from the spec (see their doc comments).
-/

namespace DeleteApi

/-- JS truthiness of a string-or-undefined value: `undefined` and `""` are
falsy, every other string is truthy. -/
def truthy : Option String → Bool
  | none => false
  | some s => s != ""

/-- JS `a || b` on string-or-undefined values. -/
def jsOr (a b : Option String) : Option String :=
  if truthy a then a else b

/-- JS `a || d` where `d` is a (truthy) string literal default. -/
def jsOrD (a : Option String) (d : String) : String :=
  if truthy a then a.getD "" else d

/-- JS string coercion used by `+` concatenation: `undefined` prints as
`"undefined"`. -/
def jsShow (a : Option String) : String := a.getD "undefined"

/-- One character of JS `String.prototype.toLowerCase` restricted to its
ASCII action: `A`–`Z` (codes 65–90) map 32 codes up, all else unchanged. -/
def jsLowerChar (c : Char) : Char :=
  if 65 ≤ c.toNat ∧ c.toNat ≤ 90 then Char.ofNat (c.toNat + 32) else c

/-- JS `String.prototype.toLowerCase` (ASCII action). -/
def jsToLowerCase (s : String) : String := ⟨s.data.map jsLowerChar⟩

/-- Byte view of a JS string under Node's `'ascii'` buffer encoding
(character code modulo 256). -/
def asciiBytes (s : String) : List Nat := s.data.map (fun c => c.toNat % 256)

/-- The base64 alphabet. -/
def base64Table : List Char :=
  "ABCDEFGHIJKLMNOPQRSTUVWXYZabcdefghijklmnopqrstuvwxyz0123456789+/".data

/-- Digit lookup in the base64 alphabet. -/
def b64Char (n : Nat) : Char := base64Table.getD n '?'

/-- Base64 encoding of a byte list, three bytes to four digits, with `=`
padding, as produced by Node's `Buffer.prototype.toString('base64')`. -/
def base64Chunks : List Nat → List Char
  | [] => []
  | [a] => [b64Char (a / 4), b64Char (a % 4 * 16), '=', '=']
  | [a, b] => [b64Char (a / 4), b64Char (a % 4 * 16 + b / 16), b64Char (b % 16 * 4), '=']
  | a :: b :: c :: rest =>
      b64Char (a / 4) :: b64Char (a % 4 * 16 + b / 16) ::
      b64Char (b % 16 * 4 + c / 64) :: b64Char (c % 64) :: base64Chunks rest

/-- JS `Buffer.from(s,'ascii').toString('base64')`. -/
def base64EncodeAscii (s : String) : String := ⟨base64Chunks (asciiBytes s)⟩

/-! ## Data model -/

/-- A gateway tenant as consumed by `main`: only its `id` is read
(`tenants[0].id`). -/
structure Tenant where
  id : String
  deriving DecidableEq, Repr

/-- The operations of one path: operation name (HTTP method) paired with
its gateway-routing metadata (opaque to this workflow). -/
abbrev OperationSet := List (String × String)

/-- An API's endpoint-definition document: each path maps to its set of
operations. -/
abbrev EndpointDoc := List (String × OperationSet)

/-- A gateway-side API resource as consumed by `main`: fields `id`,
`tenantId`, `basePath` and its endpoint definition. -/
structure GwApi where
  id : String
  tenantId : String
  basePath : String
  endpoints : EndpointDoc
  deriving DecidableEq, Repr

/-- The `gwInfo` record built by `main`: gateway URL plus the optional
basic-auth token. -/
structure GwInfo where
  gwUrl : String
  gwAuth : Option String
  deriving DecidableEq, Repr

/-- The invocation message.  Each field is a string or absent. -/
structure Message where
  gwUrl : Option String
  gwUser : Option String
  gwPwd : Option String
  __ow_meta_namespace : Option String
  «namespace» : Option String
  tenantInstance : Option String
  basepath : Option String
  relpath : Option String
  operation : Option String
  deriving DecidableEq, Repr

/-- The `endpoint` selector object built by `main` for partial deletion. -/
structure Endpoint where
  gatewayMethod : Option String
  gatewayPath : Option String
  deriving DecidableEq, Repr

/-- One collaborator call made by the workflow, with the arguments passed. -/
inductive Call where
  | getTenants (gwInfo : GwInfo) (ns : Option String) (tenantInstance : String)
  | getApis (gwInfo : GwInfo) (tenantId : String) (basepath : Option String)
  | deleteApiFromGateway (gwInfo : GwInfo) (apiId : String)
  | addApiToGateway (gwInfo : GwInfo) (tenantId : String) (doc : EndpointDoc) (apiId : String)
  deriving DecidableEq, Repr

instance {ε α : Type} [DecidableEq ε] [DecidableEq α] : DecidableEq (Except ε α) := fun a b =>
  match a, b with
  | .error x, .error y =>
    if h : x = y then .isTrue (h ▸ rfl) else .isFalse (fun hc => h (Except.error.inj hc))
  | .ok x, .ok y =>
    if h : x = y then .isTrue (h ▸ rfl) else .isFalse (fun hc => h (Except.ok.inj hc))
  | .error _, .ok _ => .isFalse (fun hc => Except.noConfusion hc)
  | .ok _, .error _ => .isFalse (fun hc => Except.noConfusion hc)

/-- The outcome each collaborator call would produce in this invocation
(each is called at most once per invocation). -/
structure Env where
  getTenantsResult : Except String (List Tenant)
  getApisResult : Except String (List GwApi)
  deleteApiResult : Except String Unit
  addApiResult : Except String Unit
  deriving DecidableEq, Repr

/-! ## Spec-modelled pure helpers (from `utils.js`, not under the sources) -/

/-- Modelled from the spec: `utils.generateSwaggerApiFromGwApi` is not under
the sources.  Per §4.5 step 1 it is "a structural transform with no business
logic — a 1:1 mapping of operations and paths" from the gateway-native
representation to the editable document; with the native representation
modelled by the same `EndpointDoc` shape, the 1:1 transform is the
identity on the API's endpoint definition. -/
def generateSwaggerApiFromGwApi (gwApi : GwApi) : EndpointDoc :=
  gwApi.endpoints

/-- Modelled from the spec: `utils.removeEndpointFromSwaggerApi` is not
under the sources.  Per §4.5 steps 2–4: locate the path entry matching the
selector's relative path (not found → `PathNotFound`); if an operation was
specified, locate it under the path (not found → `OperationNotFound`),
remove only that operation, and remove the whole path entry if no
operations remain; if no operation was specified, remove the entire path
entry.  The JS function returns either the mutated document or an error
string; this is modelled with `Except`. -/
def removeEndpointFromSwaggerApi (doc : EndpointDoc) (endpoint : Endpoint) :
    Except String EndpointDoc :=
  let path := endpoint.gatewayPath.getD ""
  match doc.lookup path with
  | none => .error ("Path " ++ path ++ " not found in the API")
  | some ops =>
    if truthy endpoint.gatewayMethod then
      let op := endpoint.gatewayMethod.getD ""
      match ops.lookup op with
      | none => .error ("Operation " ++ op ++ " not found under path " ++ path)
      | some _ =>
        let remaining := ops.filter (fun q => q.1 != op)
        if remaining.isEmpty then
          .ok (doc.filter (fun p => p.1 != path))
        else
          .ok (doc.map (fun p => if p.1 = path then (p.1, remaining) else p))
    else
      .ok (doc.filter (fun p => p.1 != path))

/-! ## The action itself (`deleteApi.js`) -/

/-- `validateArgs(message)` (lines 138–166).  The JS function returns an
error string (truthy) on failure and `''` on success, and on the way
lowercases `message.operation` in place; the in-place mutation is modelled
by returning the updated message in the `.ok` case. -/
def validateArgs (message : Option Message) : Except String Message :=
  match message with
  | none => .error "Internal error.  A message parameter was not supplied."
  | some msg =>
    if !truthy msg.gwUrl then .error "gwUrl is required."
    else if !truthy msg.__ow_meta_namespace then .error "__ow_meta_namespace is required."
    else if !truthy msg.basepath then .error "basepath is required."
    else if !truthy msg.relpath && truthy msg.operation then
      .error "When specifying an operation, the relpath is required."
    else if truthy msg.operation then
      .ok { msg with operation := some (jsToLowerCase (msg.operation.getD "")) }
    else .ok msg

/-- The `gwInfo` object built in `main` (lines 45–50): the gateway URL,
plus `gwAuth = base64(gwUser + ':' + gwPwd)` when both credentials are
truthy. -/
def mkGwInfo (msg : Message) : GwInfo :=
  { gwUrl := msg.gwUrl.getD ""
    gwAuth :=
      if truthy msg.gwUser && truthy msg.gwPwd then
        some (base64EncodeAscii (msg.gwUser.getD "" ++ ":" ++ msg.gwPwd.getD ""))
      else none }

/-- Line 53: `message.namespace = message.__ow_meta_namespace || message.namespace`. -/
def resolvedNamespace (msg : Message) : Option String :=
  jsOr msg.__ow_meta_namespace msg.«namespace»

/-- Line 55: `var tenantInstance = message.tenantInstance || 'openwhisk'`. -/
def resolvedTenantInstance (msg : Message) : String :=
  jsOrD msg.tenantInstance "openwhisk"

/-- The final `.catch` (lines 131–134): every rejection flowing out of the
promise chain is prefixed with `API deletion failure: `. -/
def wrapFailure (reason : String) : Except String Unit :=
  .error ("API deletion failure: " ++ reason)

/-- The last two links of the promise chain applied to a collaborator
call's outcome: the final `.then` (lines 127–130) turns success into
`Promise.resolve()`, the `.catch` (lines 131–134) wraps any rejection. -/
def wrapResult : Except String Unit → Except String Unit
  | .ok _ => .ok ()
  | .error e => wrapFailure e

/-- The promise chain of `main` (lines 45–134), from the construction of
`gwInfo` through the final `.catch`, as straight-line code over `Env`.
Returns the final result together with the ordered list of collaborator
calls made.  Note the faithful rendering of lines 103–106: when more than
one API is returned, the source constructs `Promise.reject(...)` but does
**not** return it, so control falls through to `Promise.resolve(apis[0])`
and the workflow continues with the first API. -/
def mainChain (env : Env) (msg : Message) : Except String Unit × List Call :=
  let gwInfo := mkGwInfo msg
  let ns := resolvedNamespace msg
  let tenantInstance := resolvedTenantInstance msg
  let deleteEntireApi := !truthy msg.relpath
  let calls0 := [Call.getTenants gwInfo ns tenantInstance]
  match env.getTenantsResult with
  | .error e => (wrapFailure e, calls0)
  | .ok tenants =>
    if tenants.length == 0 then
      (wrapFailure ("No Tenant found for namespace " ++ jsShow ns), calls0)
    else if tenants.length > 1 then
      (wrapFailure ("Internal error. Multiple API Gateway tenants found for namespace "
        ++ jsShow ns ++ " and tenant instance " ++ tenantInstance), calls0)
    else
      let tenantId := (tenants.headD { id := "" }).id
      let calls1 := calls0 ++ [Call.getApis gwInfo tenantId msg.basepath]
      match env.getApisResult with
      | .error e => (wrapFailure e, calls1)
      | .ok apis =>
        if apis.length == 0 then
          (wrapFailure ("API " ++ jsShow msg.basepath ++ " does not exist."), calls1)
        else
          -- lines 103–106: `apis.length > 1` only logs and builds an
          -- unreturned rejection; execution continues with `apis[0]`
          let gwApi := apis.headD { id := "", tenantId := "", basePath := "", endpoints := [] }
          if deleteEntireApi then
            (wrapResult env.deleteApiResult,
              calls1 ++ [Call.deleteApiFromGateway gwInfo gwApi.id])
          else
            let swaggerApi := generateSwaggerApiFromGwApi gwApi
            let endpoint : Endpoint :=
              { gatewayMethod := msg.operation, gatewayPath := msg.relpath }
            match removeEndpointFromSwaggerApi swaggerApi endpoint with
            | .error errMsg => (wrapFailure errMsg, calls1)
            | .ok swagger =>
              (wrapResult env.addApiResult,
                calls1 ++ [Call.addApiToGateway gwInfo gwApi.tenantId swagger gwApi.id])

/-- `main(message)` (lines 38–135): validate, then run the promise chain
on the validated (operation-normalized) message.  A validation failure is
rejected before the chain is built (line 42), so it is not wrapped by the
chain's `.catch`. -/
def main (env : Env) (message : Option Message) : Except String Unit × List Call :=
  match validateArgs message with
  | .error badArgMsg => (.error badArgMsg, [])
  | .ok msg => mainChain env msg

/-- The tenant-lookup call the chain makes first (line 80). -/
def tenantsCall (msg : Message) : Call :=
  Call.getTenants (mkGwInfo msg) (resolvedNamespace msg) (resolvedTenantInstance msg)

/-- The API-lookup call made after tenant resolution (line 96). -/
def apisCall (msg : Message) (t : Tenant) : Call :=
  Call.getApis (mkGwInfo msg) t.id msg.basepath

/-- Recognizer for `addApiToGateway` calls (the replace/apply step). -/
def Call.isAddApi : Call → Bool
  | .addApiToGateway _ _ _ _ => true
  | _ => false

/-! ## Sample concrete data (used to instantiate the theorems) -/

/-- A sample endpoint document: path `/a` with operations `get` and `post`,
path `/b` with operation `put`. -/
def sampleDoc : EndpointDoc :=
  [("/a", [("get", "m1"), ("post", "m2")]), ("/b", [("put", "m3")])]

/-- A sample gateway tenant. -/
def sampleTenant : Tenant := { id := "tenant-1" }

/-- A sample gateway API owning `sampleDoc`. -/
def sampleApi : GwApi :=
  { id := "api-1", tenantId := "tenant-1", basePath := "/bp", endpoints := sampleDoc }

/-- A second gateway API with the same basepath, for ambiguity scenarios. -/
def sampleApi2 : GwApi :=
  { id := "api-2", tenantId := "tenant-1", basePath := "/bp", endpoints := sampleDoc }

/-- A sample valid whole-delete message. -/
def sampleMsg : Message :=
  { gwUrl := some "http://gw"
    gwUser := none
    gwPwd := none
    __ow_meta_namespace := some "ns1"
    «namespace» := none
    tenantInstance := none
    basepath := some "/bp"
    relpath := none
    operation := none }

/-- A sample environment: one tenant, one API, successful gateway calls. -/
def sampleEnv : Env :=
  { getTenantsResult := .ok [sampleTenant]
    getApisResult := .ok [sampleApi]
    deleteApiResult := .ok ()
    addApiResult := .ok () }

/-! ## Helper lemmas -/

theorem jsLowerChar_idem (c : Char) : jsLowerChar (jsLowerChar c) = jsLowerChar c := by
  unfold jsLowerChar
  by_cases h : 65 ≤ c.toNat ∧ c.toNat ≤ 90
  · rw [if_pos h]
    have hlt : c.toNat + 32 < 55296 := by omega
    have h32 : (Char.ofNat (c.toNat + 32)).toNat = c.toNat + 32 := by
      simp only [Char.ofNat, Nat.isValidChar, Char.toNat, Char.ofNatAux, UInt32.ofNat',
        UInt32.toNat]
      split
      · rfl
      · next hn => exact absurd (Or.inl hlt) hn
    rw [if_neg (by rw [h32]; omega)]
  · rw [if_neg h, if_neg h]

theorem jsToLowerCase_idem (s : String) :
    jsToLowerCase (jsToLowerCase s) = jsToLowerCase s := by
  unfold jsToLowerCase
  exact congrArg String.mk
    (by rw [List.map_map]; exact List.map_congr_left (fun c _ => jsLowerChar_idem c))

theorem jsToLowerCase_eq_empty_iff (s : String) : jsToLowerCase s = "" ↔ s = "" := by
  constructor
  · intro h
    have hd : (jsToLowerCase s).data = "".data := congrArg String.data h
    simp only [jsToLowerCase] at hd
    have : s.data = [] := List.map_eq_nil_iff.mp hd
    cases s
    simp_all
  · intro h
    subst h
    rfl

theorem truthy_some_lower (s : String) :
    truthy (some (jsToLowerCase s)) = truthy (some s) := by
  by_cases h : s = ""
  · subst h; rfl
  · have h2 : jsToLowerCase s ≠ "" := fun hc => h ((jsToLowerCase_eq_empty_iff s).mp hc)
    have e1 : (jsToLowerCase s != "") = true := by simpa [bne_iff_ne] using h2
    have e2 : (s != "") = true := by simpa [bne_iff_ne] using h
    simp [truthy, e1, e2]

theorem lookup_filterKey_self {β : Type} (l : List (String × β)) (k : String) :
    (l.filter (fun q => q.1 != k)).lookup k = none := by
  induction l with
  | nil => rfl
  | cons hd tl ih =>
    obtain ⟨a, b⟩ := hd
    by_cases hak : a = k
    · subst hak
      rw [List.filter_cons, if_neg (by simp)]
      exact ih
    · have hb : ((a, b).1 != k) = true := by simpa [bne_iff_ne] using hak
      rw [List.filter_cons, if_pos hb]
      have hka : (k == a) = false := beq_eq_false_iff_ne.mpr (Ne.symm hak)
      simp [List.lookup, hka, ih]

theorem lookup_filterKey_ne {β : Type} (l : List (String × β)) (k p : String)
    (hpk : p ≠ k) :
    (l.filter (fun q => q.1 != k)).lookup p = l.lookup p := by
  induction l with
  | nil => rfl
  | cons hd tl ih =>
    obtain ⟨a, b⟩ := hd
    by_cases hak : a = k
    · subst hak
      rw [List.filter_cons, if_neg (by simp)]
      have hpa : (p == a) = false := beq_eq_false_iff_ne.mpr hpk
      simp [List.lookup, hpa, ih]
    · have hb : ((a, b).1 != k) = true := by simpa [bne_iff_ne] using hak
      rw [List.filter_cons, if_pos hb]
      by_cases hpa : p = a
      · subst hpa
        simp [List.lookup]
      · have hpa2 : (p == a) = false := beq_eq_false_iff_ne.mpr hpa
        simp [List.lookup, hpa2, ih]

theorem lookup_mapUpdate_self {β : Type} (l : List (String × β)) (k : String)
    (w : β) (v : β) (h : l.lookup k = some v) :
    (l.map (fun q => if q.1 = k then (q.1, w) else q)).lookup k = some w := by
  induction l with
  | nil => simp at h
  | cons hd tl ih =>
    obtain ⟨a, b⟩ := hd
    by_cases hak : a = k
    · subst hak
      simp only [List.map_cons, if_true]
      simp [List.lookup]
    · have hka : (k == a) = false := beq_eq_false_iff_ne.mpr (Ne.symm hak)
      simp only [List.lookup, hka] at h
      simp only [List.map_cons, if_neg hak]
      simp [List.lookup, hka, ih h]

theorem lookup_mapUpdate_ne {β : Type} (l : List (String × β)) (k p : String)
    (w : β) (hpk : p ≠ k) :
    (l.map (fun q => if q.1 = k then (q.1, w) else q)).lookup p = l.lookup p := by
  induction l with
  | nil => rfl
  | cons hd tl ih =>
    obtain ⟨a, b⟩ := hd
    by_cases hak : a = k
    · subst hak
      have hpa : (p == a) = false := beq_eq_false_iff_ne.mpr hpk
      simp only [List.map_cons, if_true]
      simp [List.lookup, hpa, ih]
    · simp only [List.map_cons, if_neg hak]
      by_cases hpa : p = a
      · subst hpa
        simp [List.lookup]
      · have hpa2 : (p == a) = false := beq_eq_false_iff_ne.mpr hpa
        simp [List.lookup, hpa2, ih]

/-! ## Validation lemmas -/

theorem validateArgs_ok_noop (msg : Message) (hgw : truthy msg.gwUrl = true)
    (hns : truthy msg.__ow_meta_namespace = true) (hbp : truthy msg.basepath = true)
    (hop : truthy msg.operation = false) :
    validateArgs (some msg) = .ok msg := by
  simp [validateArgs, hgw, hns, hbp, hop]

theorem validateArgs_ok_op (msg : Message) (hgw : truthy msg.gwUrl = true)
    (hns : truthy msg.__ow_meta_namespace = true) (hbp : truthy msg.basepath = true)
    (hop : truthy msg.operation = true) (hrp : truthy msg.relpath = true) :
    validateArgs (some msg) =
      .ok { msg with operation := some (jsToLowerCase (msg.operation.getD "")) } := by
  simp [validateArgs, hgw, hns, hbp, hop, hrp]

/-! ## Scenario lemmas for the promise chain -/

theorem mainChain_tenants_error (env : Env) (msg : Message) (e : String)
    (h : env.getTenantsResult = .error e) :
    mainChain env msg = (wrapFailure e, [tenantsCall msg]) := by
  simp [mainChain, h, tenantsCall]

theorem mainChain_no_tenant (env : Env) (msg : Message)
    (h : env.getTenantsResult = .ok []) :
    mainChain env msg =
      (wrapFailure ("No Tenant found for namespace " ++ jsShow (resolvedNamespace msg)),
       [tenantsCall msg]) := by
  simp [mainChain, h, tenantsCall]

theorem mainChain_multi_tenants (env : Env) (msg : Message) (t1 t2 : Tenant)
    (ts : List Tenant) (h : env.getTenantsResult = .ok (t1 :: t2 :: ts)) :
    mainChain env msg =
      (wrapFailure ("Internal error. Multiple API Gateway tenants found for namespace "
         ++ jsShow (resolvedNamespace msg) ++ " and tenant instance "
         ++ resolvedTenantInstance msg),
       [tenantsCall msg]) := by
  simp [mainChain, h, tenantsCall]

theorem mainChain_apis_error (env : Env) (msg : Message) (t : Tenant) (e : String)
    (ht : env.getTenantsResult = .ok [t]) (ha : env.getApisResult = .error e) :
    mainChain env msg = (wrapFailure e, [tenantsCall msg, apisCall msg t]) := by
  simp [mainChain, ht, ha, tenantsCall, apisCall]

theorem mainChain_no_apis (env : Env) (msg : Message) (t : Tenant)
    (ht : env.getTenantsResult = .ok [t]) (ha : env.getApisResult = .ok []) :
    mainChain env msg =
      (wrapFailure ("API " ++ jsShow msg.basepath ++ " does not exist."),
       [tenantsCall msg, apisCall msg t]) := by
  simp [mainChain, ht, ha, tenantsCall, apisCall]

theorem mainChain_whole_delete (env : Env) (msg : Message) (t : Tenant)
    (a : GwApi) (rest : List GwApi) (ht : env.getTenantsResult = .ok [t])
    (ha : env.getApisResult = .ok (a :: rest)) (hrp : truthy msg.relpath = false) :
    mainChain env msg =
      (wrapResult env.deleteApiResult,
       [tenantsCall msg, apisCall msg t, Call.deleteApiFromGateway (mkGwInfo msg) a.id]) := by
  simp [mainChain, ht, ha, hrp, tenantsCall, apisCall]

theorem mainChain_partial_edit_error (env : Env) (msg : Message) (t : Tenant)
    (a : GwApi) (rest : List GwApi) (err : String)
    (ht : env.getTenantsResult = .ok [t]) (ha : env.getApisResult = .ok (a :: rest))
    (hrp : truthy msg.relpath = true)
    (hre : removeEndpointFromSwaggerApi (generateSwaggerApiFromGwApi a)
      { gatewayMethod := msg.operation, gatewayPath := msg.relpath } = .error err) :
    mainChain env msg = (wrapFailure err, [tenantsCall msg, apisCall msg t]) := by
  simp [mainChain, ht, ha, hrp, hre, tenantsCall, apisCall]

theorem mainChain_partial_ok (env : Env) (msg : Message) (t : Tenant)
    (a : GwApi) (rest : List GwApi) (doc : EndpointDoc)
    (ht : env.getTenantsResult = .ok [t]) (ha : env.getApisResult = .ok (a :: rest))
    (hrp : truthy msg.relpath = true)
    (hre : removeEndpointFromSwaggerApi (generateSwaggerApiFromGwApi a)
      { gatewayMethod := msg.operation, gatewayPath := msg.relpath } = .ok doc) :
    mainChain env msg =
      (wrapResult env.addApiResult,
       [tenantsCall msg, apisCall msg t,
        Call.addApiToGateway (mkGwInfo msg) a.tenantId doc a.id]) := by
  simp [mainChain, ht, ha, hrp, hre, tenantsCall, apisCall]

theorem mainChain_head_call (env : Env) (msg : Message) :
    (mainChain env msg).2.take 1 = [tenantsCall msg] := by
  rcases ht : env.getTenantsResult with e | tenants
  · rw [mainChain_tenants_error env msg e ht]
    rfl
  · rcases tenants with _ | ⟨t1, rest1⟩
    · rw [mainChain_no_tenant env msg ht]
      rfl
    · rcases rest1 with _ | ⟨t2, ts⟩
      · rcases ha : env.getApisResult with e | apis
        · rw [mainChain_apis_error env msg t1 e ht ha]
          rfl
        · rcases apis with _ | ⟨a, rest⟩
          · rw [mainChain_no_apis env msg t1 ht ha]
            rfl
          · cases hrp : truthy msg.relpath
            · rw [mainChain_whole_delete env msg t1 a rest ht ha hrp]
              rfl
            · rcases hre : removeEndpointFromSwaggerApi (generateSwaggerApiFromGwApi a)
                  { gatewayMethod := msg.operation, gatewayPath := msg.relpath } with err | doc
              · rw [mainChain_partial_edit_error env msg t1 a rest err ht ha hrp hre]
                rfl
              · rw [mainChain_partial_ok env msg t1 a rest doc ht ha hrp hre]
                rfl
      · rw [mainChain_multi_tenants env msg t1 t2 ts ht]
        rfl

theorem mainChain_take_two (env : Env) (msg : Message) (t : Tenant)
    (ht : env.getTenantsResult = .ok [t]) :
    (mainChain env msg).2.take 2 = [tenantsCall msg, apisCall msg t] := by
  rcases ha : env.getApisResult with e | apis
  · rw [mainChain_apis_error env msg t e ht ha]
    rfl
  · rcases apis with _ | ⟨a, rest⟩
    · rw [mainChain_no_apis env msg t ht ha]
      rfl
    · cases hrp : truthy msg.relpath
      · rw [mainChain_whole_delete env msg t a rest ht ha hrp]
        rfl
      · rcases hre : removeEndpointFromSwaggerApi (generateSwaggerApiFromGwApi a)
            { gatewayMethod := msg.operation, gatewayPath := msg.relpath } with err | doc
        · rw [mainChain_partial_edit_error env msg t a rest err ht ha hrp hre]
          rfl
        · rw [mainChain_partial_ok env msg t a rest doc ht ha hrp hre]
          rfl

theorem mainChain_whole_no_addApi (env : Env) (msg : Message)
    (hrp : truthy msg.relpath = false) :
    ∀ c ∈ (mainChain env msg).2, c.isAddApi = false := by
  rcases ht : env.getTenantsResult with e | tenants
  · rw [mainChain_tenants_error env msg e ht]
    intro c hc
    fin_cases hc <;> rfl
  · rcases tenants with _ | ⟨t1, rest1⟩
    · rw [mainChain_no_tenant env msg ht]
      intro c hc
      fin_cases hc <;> rfl
    · rcases rest1 with _ | ⟨t2, ts⟩
      · rcases ha : env.getApisResult with e | apis
        · rw [mainChain_apis_error env msg t1 e ht ha]
          intro c hc
          fin_cases hc <;> rfl
        · rcases apis with _ | ⟨a, rest⟩
          · rw [mainChain_no_apis env msg t1 ht ha]
            intro c hc
            fin_cases hc <;> rfl
          · rw [mainChain_whole_delete env msg t1 a rest ht ha hrp]
            intro c hc
            fin_cases hc <;> rfl
      · rw [mainChain_multi_tenants env msg t1 t2 ts ht]
        intro c hc
        fin_cases hc <;> rfl

theorem mainChain_relpath_falsy_eq (env : Env) (msg : Message)
    (hrp : truthy msg.relpath = false) :
    mainChain env msg = mainChain env { msg with relpath := none } := by
  have hrp2 : truthy ({ msg with relpath := none } : Message).relpath = false := rfl
  rcases ht : env.getTenantsResult with e | tenants
  · rw [mainChain_tenants_error env msg e ht, mainChain_tenants_error env _ e ht]
    simp [tenantsCall, mkGwInfo, resolvedNamespace, resolvedTenantInstance]
  · rcases tenants with _ | ⟨t1, rest1⟩
    · rw [mainChain_no_tenant env msg ht, mainChain_no_tenant env _ ht]
      simp [tenantsCall, mkGwInfo, resolvedNamespace, resolvedTenantInstance]
    · rcases rest1 with _ | ⟨t2, ts⟩
      · rcases ha : env.getApisResult with e | apis
        · rw [mainChain_apis_error env msg t1 e ht ha, mainChain_apis_error env _ t1 e ht ha]
          simp [tenantsCall, apisCall, mkGwInfo, resolvedNamespace, resolvedTenantInstance]
        · rcases apis with _ | ⟨a, rest⟩
          · rw [mainChain_no_apis env msg t1 ht ha, mainChain_no_apis env _ t1 ht ha]
            simp [tenantsCall, apisCall, mkGwInfo, resolvedNamespace, resolvedTenantInstance,
              jsShow]
          · rw [mainChain_whole_delete env msg t1 a rest ht ha hrp,
              mainChain_whole_delete env _ t1 a rest ht ha hrp2]
            simp [tenantsCall, apisCall, mkGwInfo, resolvedNamespace, resolvedTenantInstance]
      · rw [mainChain_multi_tenants env msg t1 t2 ts ht, mainChain_multi_tenants env _ t1 t2 ts ht]
        simp [tenantsCall, mkGwInfo, resolvedNamespace, resolvedTenantInstance]

theorem validateArgs_ok_relpath (msg m : Message)
    (h : validateArgs (some msg) = .ok m) : m.relpath = msg.relpath := by
  simp only [validateArgs] at h
  split_ifs at h <;>
    first
      | exact Except.noConfusion h
      | rw [← Except.ok.inj h]

/-! ## Claim theorems -/

/-- Claim C3: every input missing `gwUrl`, the namespace-override field, or
`basepath`, and every input with `operation` set but `relpath` absent, fails
immediately with the corresponding specific InputError string and makes zero
calls to the gateway client (the call trace is empty). -/
theorem missing_required_args_fail_fast (env : Env) (msg : Message) :
    (truthy msg.gwUrl = false →
      main env (some msg) = (.error "gwUrl is required.", []))
    ∧ (truthy msg.gwUrl = true → truthy msg.__ow_meta_namespace = false →
      main env (some msg) = (.error "__ow_meta_namespace is required.", []))
    ∧ (truthy msg.gwUrl = true → truthy msg.__ow_meta_namespace = true →
       truthy msg.basepath = false →
      main env (some msg) = (.error "basepath is required.", []))
    ∧ (truthy msg.gwUrl = true → truthy msg.__ow_meta_namespace = true →
       truthy msg.basepath = true → truthy msg.relpath = false →
       truthy msg.operation = true →
      main env (some msg) =
        (.error "When specifying an operation, the relpath is required.", [])) := by
  refine ⟨fun h1 => ?_, fun h1 h2 => ?_, fun h1 h2 h3 => ?_, fun h1 h2 h3 h4 h5 => ?_⟩ <;>
    simp [main, validateArgs, h1, *]

/-- Witness for C3 at concrete inputs: each missing-field case produces its
error with an empty call trace. -/
theorem missing_required_args_fail_fast_witness :
    main sampleEnv (some { sampleMsg with gwUrl := none }) =
      (.error "gwUrl is required.", [])
    ∧ main sampleEnv (some { sampleMsg with __ow_meta_namespace := none }) =
      (.error "__ow_meta_namespace is required.", [])
    ∧ main sampleEnv (some { sampleMsg with basepath := none }) =
      (.error "basepath is required.", [])
    ∧ main sampleEnv (some { sampleMsg with operation := some "get" }) =
      (.error "When specifying an operation, the relpath is required.", []) :=
  ⟨(missing_required_args_fail_fast sampleEnv _).1 rfl,
   (missing_required_args_fail_fast sampleEnv _).2.1 rfl rfl,
   (missing_required_args_fail_fast sampleEnv _).2.2.1 rfl rfl rfl,
   (missing_required_args_fail_fast sampleEnv _).2.2.2 rfl rfl rfl rfl rfl⟩

/-- Claim C4: after validation, tenant resolution yields: zero matches →
failure with the no-tenant message; more than one match → failure with the
ambiguous-tenant internal-error message (in both cases the trace is the
single tenant-lookup call, so API resolution is never called); exactly one
match → the chain proceeds and the API lookup is made with that tenant's
id. -/
theorem tenant_resolution_trichotomy (env : Env) (msg vmsg : Message)
    (hv : validateArgs (some msg) = .ok vmsg) :
    (env.getTenantsResult = .ok [] →
      main env (some msg) =
        (wrapFailure ("No Tenant found for namespace " ++ jsShow (resolvedNamespace vmsg)),
         [tenantsCall vmsg]))
    ∧ (∀ t1 t2 ts, env.getTenantsResult = .ok (t1 :: t2 :: ts) →
      main env (some msg) =
        (wrapFailure ("Internal error. Multiple API Gateway tenants found for namespace "
           ++ jsShow (resolvedNamespace vmsg) ++ " and tenant instance "
           ++ resolvedTenantInstance vmsg),
         [tenantsCall vmsg]))
    ∧ (∀ t, env.getTenantsResult = .ok [t] →
      (main env (some msg)).2.take 2 = [tenantsCall vmsg, apisCall vmsg t]) := by
  have hm : main env (some msg) = mainChain env vmsg := by simp [main, hv]
  refine ⟨fun h => ?_, fun t1 t2 ts h => ?_, fun t h => ?_⟩
  · rw [hm, mainChain_no_tenant env vmsg h]
  · rw [hm, mainChain_multi_tenants env vmsg t1 t2 ts h]
  · rw [hm, mainChain_take_two env vmsg t h]

/-- Witness for C4 at concrete inputs: the three tenant-count cases. -/
theorem tenant_resolution_trichotomy_witness :
    main { sampleEnv with getTenantsResult := .ok [] } (some sampleMsg) =
      (wrapFailure ("No Tenant found for namespace " ++ jsShow (resolvedNamespace sampleMsg)),
       [tenantsCall sampleMsg])
    ∧ main { sampleEnv with getTenantsResult := .ok [sampleTenant, sampleTenant] }
        (some sampleMsg) =
      (wrapFailure ("Internal error. Multiple API Gateway tenants found for namespace "
         ++ jsShow (resolvedNamespace sampleMsg) ++ " and tenant instance "
         ++ resolvedTenantInstance sampleMsg),
       [tenantsCall sampleMsg])
    ∧ (main sampleEnv (some sampleMsg)).2.take 2 =
        [tenantsCall sampleMsg, apisCall sampleMsg sampleTenant] :=
  ⟨(tenant_resolution_trichotomy _ sampleMsg sampleMsg rfl).1 rfl,
   (tenant_resolution_trichotomy _ sampleMsg sampleMsg rfl).2.1 sampleTenant sampleTenant [] rfl,
   (tenant_resolution_trichotomy _ sampleMsg sampleMsg rfl).2.2 sampleTenant rfl⟩

/-- Claim C5: for a valid input with no truthy `relpath` (and hence no
`operation`), once one tenant and one API resolve, the workflow makes
exactly the three calls ending in a single `deleteApiFromGateway` with the
resolved API's id — no edit and no `addApiToGateway` — and the delete
call's success ends the workflow successfully. -/
theorem whole_api_delete_single_call (env : Env) (msg : Message) (t : Tenant) (a : GwApi)
    (hgw : truthy msg.gwUrl = true) (hns : truthy msg.__ow_meta_namespace = true)
    (hbp : truthy msg.basepath = true) (hrp : truthy msg.relpath = false)
    (hop : truthy msg.operation = false)
    (ht : env.getTenantsResult = .ok [t]) (ha : env.getApisResult = .ok [a]) :
    main env (some msg) =
      (wrapResult env.deleteApiResult,
       [tenantsCall msg, apisCall msg t, Call.deleteApiFromGateway (mkGwInfo msg) a.id])
    ∧ (env.deleteApiResult = .ok () → (main env (some msg)).1 = .ok ()) := by
  have hm : main env (some msg) = mainChain env msg := by
    simp [main, validateArgs_ok_noop msg hgw hns hbp hop]
  constructor
  · rw [hm, mainChain_whole_delete env msg t a [] ht ha hrp]
  · intro hd
    rw [hm, mainChain_whole_delete env msg t a [] ht ha hrp, hd]
    rfl

/-- Witness for C5 at the sample whole-delete invocation. -/
theorem whole_api_delete_single_call_witness :
    main sampleEnv (some sampleMsg) =
      (wrapResult sampleEnv.deleteApiResult,
       [tenantsCall sampleMsg, apisCall sampleMsg sampleTenant,
        Call.deleteApiFromGateway (mkGwInfo sampleMsg) sampleApi.id])
    ∧ (sampleEnv.deleteApiResult = .ok () → (main sampleEnv (some sampleMsg)).1 = .ok ()) :=
  whole_api_delete_single_call sampleEnv sampleMsg sampleTenant sampleApi
    rfl rfl rfl rfl rfl rfl rfl

/-- Claim C1 is violated by the code: when API resolution returns two APIs
for the resolved (tenant, basepath) pair, the multiple-APIs rejection built
on lines 103–106 is not returned, so the workflow proceeds with the first
API and still calls `deleteApiFromGateway` — it terminates successfully
instead of failing with the ambiguity error and making no further gateway
calls. -/
theorem ambiguous_api_not_rejected :
    main { sampleEnv with getApisResult := .ok [sampleApi, sampleApi2] } (some sampleMsg) =
      (.ok (), [tenantsCall sampleMsg, apisCall sampleMsg sampleTenant,
        Call.deleteApiFromGateway (mkGwInfo sampleMsg) sampleApi.id]) := by
  rfl

/-- Claim C8 is violated by the code on the same lines 103–106: the
API-resolution ambiguity failure is constructed and then swallowed — the
workflow neither rejects with the prefixed reason nor stops, and the edit
and `addApiToGateway` steps still run after the error arose. -/
theorem resolution_ambiguity_error_swallowed :
    main { sampleEnv with getApisResult := .ok [sampleApi, sampleApi2] }
        (some { sampleMsg with relpath := some "/a", operation := some "GET" }) =
      (.ok (),
       [Call.getTenants { gwUrl := "http://gw", gwAuth := none } (some "ns1") "openwhisk",
        Call.getApis { gwUrl := "http://gw", gwAuth := none } "tenant-1" (some "/bp"),
        Call.addApiToGateway { gwUrl := "http://gw", gwAuth := none } "tenant-1"
          [("/a", [("post", "m2")]), ("/b", [("put", "m3")])] "api-1"]) := by
  rfl

/-- Counterexample to claim C2 as stated: an input that omits
`__ow_meta_namespace` but supplies a plain `namespace` field (with `gwUrl`
and `basepath` present) is rejected by validation — the workflow does not
proceed and no gateway call is made. -/
theorem plain_namespace_rejected :
    main sampleEnv
        (some { sampleMsg with __ow_meta_namespace := none, «namespace» := some "plain-ns" }) =
      (.error "__ow_meta_namespace is required.", []) := by
  rfl

/-- Claim C2 as amended: the namespace-required InputError is raised
whenever `__ow_meta_namespace` is absent — even if a plain `namespace`
field is supplied — and when the override field is present its value is
the namespace used downstream (it is the one passed to the tenant
lookup, regardless of the plain field). -/
theorem override_namespace_required_and_wins (env : Env) (msg : Message) :
    (truthy msg.gwUrl = true → truthy msg.__ow_meta_namespace = false →
      main env (some msg) = (.error "__ow_meta_namespace is required.", []))
    ∧ (truthy msg.__ow_meta_namespace = true →
      resolvedNamespace msg = msg.__ow_meta_namespace)
    ∧ (truthy msg.gwUrl = true → truthy msg.__ow_meta_namespace = true →
       truthy msg.basepath = true →
       (truthy msg.operation = true → truthy msg.relpath = true) →
      (main env (some msg)).2.take 1 =
        [Call.getTenants (mkGwInfo msg) msg.__ow_meta_namespace
          (resolvedTenantInstance msg)]) := by
  refine ⟨fun h1 h2 => ?_, fun h => ?_, fun h1 h2 h3 h4 => ?_⟩
  · simp [main, validateArgs, h1, h2]
  · simp [resolvedNamespace, jsOr, h]
  · by_cases hop : truthy msg.operation = true
    · have hv := validateArgs_ok_op msg h1 h2 h3 hop (h4 hop)
      have hm : main env (some msg) =
          mainChain env { msg with operation := some (jsToLowerCase (msg.operation.getD "")) } := by
        simp [main, hv]
      rw [hm, mainChain_head_call]
      simp [tenantsCall, mkGwInfo, resolvedNamespace, resolvedTenantInstance, jsOr, h2]
    · have hop2 : truthy msg.operation = false := by
        revert hop
        cases truthy msg.operation <;> simp
      have hv := validateArgs_ok_noop msg h1 h2 h3 hop2
      have hm : main env (some msg) = mainChain env msg := by simp [main, hv]
      rw [hm, mainChain_head_call]
      simp [tenantsCall, resolvedNamespace, jsOr, h2]

/-- Witness for the amended C2 at concrete inputs: rejection without the
override despite a plain namespace, the override winning when present, and
the override's value reaching the tenant lookup. -/
theorem override_namespace_required_and_wins_witness :
    main sampleEnv
        (some { sampleMsg with __ow_meta_namespace := none, «namespace» := some "plain2" }) =
      (.error "__ow_meta_namespace is required.", [])
    ∧ resolvedNamespace { sampleMsg with «namespace» := some "plain2" } =
        ({ sampleMsg with «namespace» := some "plain2" } : Message).__ow_meta_namespace
    ∧ (main sampleEnv (some { sampleMsg with «namespace» := some "plain2" })).2.take 1 =
        [Call.getTenants (mkGwInfo { sampleMsg with «namespace» := some "plain2" })
          ({ sampleMsg with «namespace» := some "plain2" } : Message).__ow_meta_namespace
          (resolvedTenantInstance { sampleMsg with «namespace» := some "plain2" })] :=
  ⟨(override_namespace_required_and_wins sampleEnv _).1 rfl rfl,
   (override_namespace_required_and_wins sampleEnv _).2.1 rfl,
   (override_namespace_required_and_wins sampleEnv _).2.2 rfl rfl rfl (fun h => nomatch h)⟩

/-- Claim C6: in a partial delete whose selector names a path absent from
the document, or an operation absent under its path, the workflow fails
with the corresponding not-found error (wrapped by the chain's prefix) and
`addApiToGateway` is never called — the trace stops at the two lookup
calls.  The endpoint editor is modelled from the spec (`utils.js` is not
under the sources). -/
theorem partial_delete_not_found_no_replace (env : Env) (msg vmsg : Message)
    (t : Tenant) (a : GwApi) (rp : String)
    (hv : validateArgs (some msg) = .ok vmsg)
    (hrpv : vmsg.relpath = some rp) (hrpt : truthy vmsg.relpath = true)
    (ht : env.getTenantsResult = .ok [t]) (ha : env.getApisResult = .ok [a]) :
    (a.endpoints.lookup rp = none →
      main env (some msg) =
        (.error ("API deletion failure: " ++ ("Path " ++ rp ++ " not found in the API")),
         [tenantsCall vmsg, apisCall vmsg t]))
    ∧ (∀ s ops, vmsg.operation = some s → truthy vmsg.operation = true →
        a.endpoints.lookup rp = some ops → ops.lookup s = none →
      main env (some msg) =
        (.error ("API deletion failure: "
           ++ ("Operation " ++ s ++ " not found under path " ++ rp)),
         [tenantsCall vmsg, apisCall vmsg t])) := by
  have hm : main env (some msg) = mainChain env vmsg := by simp [main, hv]
  constructor
  · intro hlk
    have hre : removeEndpointFromSwaggerApi (generateSwaggerApiFromGwApi a)
        { gatewayMethod := vmsg.operation, gatewayPath := vmsg.relpath } =
        .error ("Path " ++ rp ++ " not found in the API") := by
      simp [removeEndpointFromSwaggerApi, generateSwaggerApiFromGwApi, hrpv, hlk]
    rw [hm, mainChain_partial_edit_error env vmsg t a [] _ ht ha hrpt hre]
    rfl
  · intro s ops hops hopt hlk hnone
    have hopt2 : truthy (some s) = true := by rw [← hops]; exact hopt
    have hre : removeEndpointFromSwaggerApi (generateSwaggerApiFromGwApi a)
        { gatewayMethod := vmsg.operation, gatewayPath := vmsg.relpath } =
        .error ("Operation " ++ s ++ " not found under path " ++ rp) := by
      simp [removeEndpointFromSwaggerApi, generateSwaggerApiFromGwApi, hrpv, hops, hopt2,
        hlk, hnone]
    rw [hm, mainChain_partial_edit_error env vmsg t a [] _ ht ha hrpt hre]
    rfl

/-- Witness for C6: removing the absent path `/zz`, and the absent
operation `put` under `/a`, each fails wrapped with no replace call. -/
theorem partial_delete_not_found_no_replace_witness :
    main sampleEnv (some { sampleMsg with relpath := some "/zz" }) =
      (.error ("API deletion failure: " ++ ("Path " ++ "/zz" ++ " not found in the API")),
       [tenantsCall { sampleMsg with relpath := some "/zz" },
        apisCall { sampleMsg with relpath := some "/zz" } sampleTenant])
    ∧ main sampleEnv (some { sampleMsg with relpath := some "/a", operation := some "PUT" }) =
      (.error ("API deletion failure: "
         ++ ("Operation " ++ "put" ++ " not found under path " ++ "/a")),
       [tenantsCall { sampleMsg with relpath := some "/a", operation := some "put" },
        apisCall { sampleMsg with relpath := some "/a", operation := some "put" } sampleTenant]) :=
  ⟨(partial_delete_not_found_no_replace sampleEnv { sampleMsg with relpath := some "/zz" }
      { sampleMsg with relpath := some "/zz" } sampleTenant sampleApi "/zz"
      rfl rfl rfl rfl rfl).1 rfl,
   (partial_delete_not_found_no_replace sampleEnv
      { sampleMsg with relpath := some "/a", operation := some "PUT" }
      { sampleMsg with relpath := some "/a", operation := some "put" } sampleTenant sampleApi
      "/a" (by decide) rfl rfl rfl rfl).2 "put" [("get", "m1"), ("post", "m2")]
      rfl rfl rfl rfl⟩

/-- Claim C7: in a partial delete with both `relpath` and `operation`, the
document passed to `addApiToGateway` differs from the input document only
at that path: the named operation is absent, its siblings are unchanged,
and the path entry itself is absent exactly when the operation was its
last one; every other path is unchanged.  The endpoint editor is modelled
from the spec (`utils.js` is not under the sources). -/
theorem partial_delete_removes_only_operation (env : Env) (msg vmsg : Message)
    (t : Tenant) (a : GwApi) (rp s : String) (ops : OperationSet) (m : String)
    (hv : validateArgs (some msg) = .ok vmsg)
    (hrpv : vmsg.relpath = some rp) (hrpt : truthy vmsg.relpath = true)
    (hopv : vmsg.operation = some s) (hopt : truthy vmsg.operation = true)
    (ht : env.getTenantsResult = .ok [t]) (ha : env.getApisResult = .ok [a])
    (hpath : a.endpoints.lookup rp = some ops)
    (hfound : ops.lookup s = some m) :
    ∃ doc,
      main env (some msg) =
        (wrapResult env.addApiResult,
         [tenantsCall vmsg, apisCall vmsg t,
          Call.addApiToGateway (mkGwInfo vmsg) a.tenantId doc a.id])
      ∧ doc.lookup rp = (if (ops.filter (fun q => q.1 != s)).isEmpty then none
          else some (ops.filter (fun q => q.1 != s)))
      ∧ (∀ p, p ≠ rp → doc.lookup p = a.endpoints.lookup p)
      ∧ (ops.filter (fun q => q.1 != s)).lookup s = none
      ∧ (∀ o, o ≠ s → (ops.filter (fun q => q.1 != s)).lookup o = ops.lookup o) := by
  have hm : main env (some msg) = mainChain env vmsg := by simp [main, hv]
  have hopt2 : truthy (some s) = true := by rw [← hopv]; exact hopt
  by_cases hemp : (ops.filter (fun q => q.1 != s)).isEmpty = true
  · refine ⟨a.endpoints.filter (fun p => p.1 != rp), ?_, ?_, ?_, ?_, ?_⟩
    · have hre : removeEndpointFromSwaggerApi (generateSwaggerApiFromGwApi a)
          { gatewayMethod := vmsg.operation, gatewayPath := vmsg.relpath } =
          .ok (a.endpoints.filter (fun p => p.1 != rp)) := by
        simp [removeEndpointFromSwaggerApi, generateSwaggerApiFromGwApi, hrpv, hopv, hopt2,
          hpath, hfound, hemp]
      rw [hm, mainChain_partial_ok env vmsg t a [] _ ht ha hrpt hre]
    · rw [if_pos hemp]
      exact lookup_filterKey_self a.endpoints rp
    · intro p hp
      exact lookup_filterKey_ne a.endpoints rp p hp
    · exact lookup_filterKey_self ops s
    · intro o ho
      exact lookup_filterKey_ne ops s o ho
  · refine ⟨a.endpoints.map (fun p => if p.1 = rp then (p.1, ops.filter (fun q => q.1 != s))
        else p), ?_, ?_, ?_, ?_, ?_⟩
    · have hre : removeEndpointFromSwaggerApi (generateSwaggerApiFromGwApi a)
          { gatewayMethod := vmsg.operation, gatewayPath := vmsg.relpath } =
          .ok (a.endpoints.map (fun p => if p.1 = rp then (p.1, ops.filter (fun q => q.1 != s))
            else p)) := by
        simp [removeEndpointFromSwaggerApi, generateSwaggerApiFromGwApi, hrpv, hopv, hopt2,
          hpath, hfound, hemp]
      rw [hm, mainChain_partial_ok env vmsg t a [] _ ht ha hrpt hre]
    · rw [if_neg hemp]
      exact lookup_mapUpdate_self a.endpoints rp (ops.filter (fun q => q.1 != s)) ops hpath
    · intro p hp
      exact lookup_mapUpdate_ne a.endpoints rp p (ops.filter (fun q => q.1 != s)) hp
    · exact lookup_filterKey_self ops s
    · intro o ho
      exact lookup_filterKey_ne ops s o ho

/-- Witness for C7: deleting operation `GET` (normalized to `get`) under
`/a` in the sample document. -/
theorem partial_delete_removes_only_operation_witness :
    ∃ doc,
      main sampleEnv (some { sampleMsg with relpath := some "/a", operation := some "GET" }) =
        (wrapResult sampleEnv.addApiResult,
         [tenantsCall { sampleMsg with relpath := some "/a", operation := some "get" },
          apisCall { sampleMsg with relpath := some "/a", operation := some "get" } sampleTenant,
          Call.addApiToGateway
            (mkGwInfo { sampleMsg with relpath := some "/a", operation := some "get" })
            sampleApi.tenantId doc sampleApi.id])
      ∧ doc.lookup "/a" =
          (if (([("get", "m1"), ("post", "m2")] : OperationSet).filter
              (fun q => q.1 != "get")).isEmpty then none
           else some (([("get", "m1"), ("post", "m2")] : OperationSet).filter
              (fun q => q.1 != "get")))
      ∧ (∀ p, p ≠ "/a" → doc.lookup p = sampleApi.endpoints.lookup p)
      ∧ (([("get", "m1"), ("post", "m2")] : OperationSet).filter
          (fun q => q.1 != "get")).lookup "get" = none
      ∧ (∀ o, o ≠ "get" → (([("get", "m1"), ("post", "m2")] : OperationSet).filter
          (fun q => q.1 != "get")).lookup o =
            ([("get", "m1"), ("post", "m2")] : OperationSet).lookup o) :=
  partial_delete_removes_only_operation sampleEnv
    { sampleMsg with relpath := some "/a", operation := some "GET" }
    { sampleMsg with relpath := some "/a", operation := some "get" } sampleTenant sampleApi
    "/a" "get" [("get", "m1"), ("post", "m2")] "m1" (by decide) rfl rfl rfl rfl rfl rfl rfl rfl

/-- Claim C9: the workflow's outcome is invariant under the case of the
`operation` field — running with `operation` set to any string and running
with its lower-cased form produce identical results and identical call
traces, because validation lower-cases the operation before anything else
reads it. -/
theorem operation_case_insensitive (env : Env) (msg : Message) (s : String)
    (hop : msg.operation = some s) :
    main env (some msg) =
      main env (some { msg with operation := some (jsToLowerCase s) }) := by
  have hveq : validateArgs (some msg) =
      validateArgs (some { msg with operation := some (jsToLowerCase s) }) := by
    by_cases hs : s = ""
    · subst hs
      have hmsg : ({ msg with operation := some (jsToLowerCase "") } : Message) = msg := by
        rw [show jsToLowerCase "" = "" from rfl, ← hop]
      rw [hmsg]
    · have hts : truthy (some s) = true := by
        simp [truthy, bne_iff_ne, hs]
      have htl : truthy (some (jsToLowerCase s)) = true := by
        rw [truthy_some_lower]
        exact hts
      simp [validateArgs, hop, hts, htl, jsToLowerCase_idem]
  simp only [main]
  rw [hveq]

/-- Witness for C9: `operation := "GET"` and `operation := "get"` produce
identical outcomes on the sample partial-delete invocation. -/
theorem operation_case_insensitive_witness :
    main sampleEnv (some { sampleMsg with relpath := some "/a", operation := some "GET" }) =
      main sampleEnv (some { { sampleMsg with relpath := some "/a", operation := some "GET" }
        with operation := some (jsToLowerCase "GET") }) :=
  operation_case_insensitive sampleEnv
    { sampleMsg with relpath := some "/a", operation := some "GET" } "GET" rfl

/-- Claim C10: an input whose `relpath` is the empty string behaves exactly
as if `relpath` were absent: the workflow result is the same as with
`relpath := none`; with a truthy `operation` (and the earlier required
fields present) it fails validation with the operation-requires-relpath
InputError; and no `addApiToGateway` call is ever made (never a partial
delete). -/
theorem empty_relpath_whole_delete (env : Env) (msg : Message)
    (h : msg.relpath = some "") :
    main env (some msg) = main env (some { msg with relpath := none })
    ∧ (truthy msg.gwUrl = true → truthy msg.__ow_meta_namespace = true →
       truthy msg.basepath = true → truthy msg.operation = true →
      main env (some msg) =
        (.error "When specifying an operation, the relpath is required.", []))
    ∧ (∀ c ∈ (main env (some msg)).2, c.isAddApi = false) := by
  have hrpf : truthy msg.relpath = false := by rw [h]; rfl
  refine ⟨?_, fun h1 h2 h3 h4 => ?_, ?_⟩
  · by_cases hgw : truthy msg.gwUrl = true
    · by_cases hns : truthy msg.__ow_meta_namespace = true
      · by_cases hbp : truthy msg.basepath = true
        · by_cases hop : truthy msg.operation = true
          · simp [main, validateArgs, hgw, hns, hbp, hop, hrpf,
              show truthy none = false from rfl]
          · have hop2 : truthy msg.operation = false := by
              revert hop
              cases truthy msg.operation <;> simp
            have hv1 := validateArgs_ok_noop msg hgw hns hbp hop2
            have hv2 := validateArgs_ok_noop { msg with relpath := none } hgw hns hbp hop2
            simp only [main, hv1, hv2]
            exact mainChain_relpath_falsy_eq env msg hrpf
        · have hbp2 : truthy msg.basepath = false := by
            revert hbp
            cases truthy msg.basepath <;> simp
          simp [main, validateArgs, hgw, hns, hbp2]
      · have hns2 : truthy msg.__ow_meta_namespace = false := by
          revert hns
          cases truthy msg.__ow_meta_namespace <;> simp
        simp [main, validateArgs, hgw, hns2]
    · have hgw2 : truthy msg.gwUrl = false := by
        revert hgw
        cases truthy msg.gwUrl <;> simp
      simp [main, validateArgs, hgw2]
  · simp [main, validateArgs, h1, h2, h3, h4, hrpf]
  · rcases hvv : validateArgs (some msg) with e | m
    · simp [main, hvv]
    · have hrmf : truthy m.relpath = false := by
        rw [validateArgs_ok_relpath msg m hvv]
        exact hrpf
      have hm : main env (some msg) = mainChain env m := by simp [main, hvv]
      rw [hm]
      exact mainChain_whole_no_addApi env m hrmf

/-- Witness for C10 at concrete inputs: `relpath := ""` gives the same run
as `relpath := none`; with an operation set it fails validation; and the
trace of the empty-relpath run contains no replace call. -/
theorem empty_relpath_whole_delete_witness :
    main sampleEnv (some { sampleMsg with relpath := some "" }) =
      main sampleEnv (some { { sampleMsg with relpath := some "" } with relpath := none })
    ∧ main sampleEnv (some { sampleMsg with relpath := some "", operation := some "get" }) =
        (.error "When specifying an operation, the relpath is required.", [])
    ∧ (∀ c ∈ (main sampleEnv (some { sampleMsg with relpath := some "" })).2,
        c.isAddApi = false) :=
  ⟨(empty_relpath_whole_delete sampleEnv { sampleMsg with relpath := some "" } rfl).1,
   (empty_relpath_whole_delete sampleEnv
      { sampleMsg with relpath := some "", operation := some "get" } rfl).2.1 rfl rfl rfl rfl,
   (empty_relpath_whole_delete sampleEnv { sampleMsg with relpath := some "" } rfl).2.2⟩

end DeleteApi
